import Mathlib

/- Verification of the Atari7800 AstroCart loader and checksum scripts.
   Each definition below is a shallow embedding of a function or loop of the
   Python sources; bytes are modelled as Nat, byte stores as List Nat or as
   total functions Nat to Nat, and the 32-bit accumulator wraps explicitly
   with the same mask the source applies. -/

/-- Block size of the storage medium, `BLOCK_SIZE = 512` in write_games_to_sd.py. -/
def BLOCK_SIZE : Nat := 512

/-- Blocks reserved per game slot, `BLOCKS_PER_GAME = 100` in write_games_to_sd.py. -/
def BLOCKS_PER_GAME : Nat := 100

/-- Header bytes skipped by the SD loader, the literal 128 of sim_crc3.py. -/
def header_skip_bytes : Nat := 128

/-- Sector count of one load, the literal 97 of sim_crc3.py. -/
def total_sectors : Nat := 97

/-- Payload length of sim_crc3.py: `payload_len = 49664 - 128`, where
`49664 = 97 * 512` is the byte volume of the 97 sectors the loader reads. -/
def payload_len : Nat := total_sectors * BLOCK_SIZE - header_skip_bytes

/-- Embedding of `payload = data[128:128+payload_len]` from sim_crc3.py:
the loader consumes the first 128 bytes of the stream without delivering
them, and the delivered payload is the next `payload_len` bytes. -/
def payload (data : List Nat) : List Nat :=
  (data.drop 128).take payload_len

/-- Embedding of the SD checksum loop of sim_crc3.py:
`sd_checksum = (sd_checksum + b) & 0xFFFFFFFF` folded over the payload bytes
starting from 0. -/
def sd_checksum (bytes : List Nat) : Nat :=
  bytes.foldl (fun acc b => (acc + b) &&& 0xFFFFFFFF) 0

/-- Embedding of `calculate_sum` from verify_checksum.py: drop `skip_header`
leading bytes and take the plain arithmetic sum of the rest (Python integers
do not wrap, so no mask appears here). -/
def calculate_sum (data : List Nat) (skip_header : Nat) : Nat :=
  (data.drop skip_header).sum

/-- The 32-bit mask of the sources is reduction modulo 2 ^ 32. -/
theorem and_mask32 (x : Nat) : x &&& 0xFFFFFFFF = x % 2 ^ 32 := by
  have h := Nat.and_pow_two_sub_one_eq_mod x 32
  norm_num at h
  norm_num
  exact h

/-- Folding the masked addition from any already-reduced accumulator adds the
list sum modulo 2 ^ 32. -/
theorem sd_checksum_foldl (l : List Nat) :
    ∀ s : Nat, l.foldl (fun acc b => (acc + b) &&& 0xFFFFFFFF) (s % 2 ^ 32)
      = (s + l.sum) % 2 ^ 32 := by
  induction l with
  | nil => intro s; simp
  | cons b t ih =>
      intro s
      simp only [List.foldl_cons, List.sum_cons]
      rw [and_mask32, Nat.mod_add_mod, ih (s + b), Nat.add_assoc]

/-- The wrapped fold of sim_crc3.py equals the byte sum reduced modulo 2 ^ 32. -/
theorem sd_checksum_eq_sum_mod (l : List Nat) : sd_checksum l = l.sum % 2 ^ 32 := by
  have h := sd_checksum_foldl l 0
  simpa [sd_checksum] using h

/-- Sum of a constant list. -/
theorem sum_replicate_nat (n x : Nat) : (List.replicate n x).sum = n * x := by
  simp [List.sum_replicate, smul_eq_mul]

/-- C2 counterexample: the fixture value the claim states for the
all-0xFF-after-header scenario is wrong; the code computes
`49536 * 0xFF mod 2 ^ 32 = 0x00C0BE80`, not `0x00C4C140`. -/
theorem full_sum_fixture_value_counterexample :
    sd_checksum (List.replicate 49536 0xFF) ≠ 0x00C4C140 := by
  rw [sd_checksum_eq_sum_mod, sum_replicate_nat]
  norm_num

/-- C2 (amended): in full-sum mode the checksum of any byte list, in
particular of the `[128:49664]` slice a 49664-byte stream yields, is the
arithmetic sum of those bytes modulo 2 ^ 32; for the 49536 post-header bytes
all equal to 0xFF the checksum is `49536 * 0xFF mod 2 ^ 32 = 0x00C0BE80`. -/
theorem full_sum_checksum_scenario :
    (∀ data : List Nat, sd_checksum (payload data) = (payload data).sum % 2 ^ 32) ∧
    (∀ l : List Nat, sd_checksum l = calculate_sum l 0 % 2 ^ 32) ∧
    sd_checksum (List.replicate 49536 0xFF) = 49536 * 0xFF % 2 ^ 32 ∧
    49536 * 0xFF % 2 ^ 32 = 0x00C0BE80 := by
  refine ⟨fun data => sd_checksum_eq_sum_mod _, fun l => ?_, ?_, by norm_num⟩
  · rw [sd_checksum_eq_sum_mod]
    simp [calculate_sum]
  · rw [sd_checksum_eq_sum_mod, sum_replicate_nat]

/-- C3: for a stream of exactly `total_sectors * BLOCK_SIZE` bytes (the full
97-sector read), the delivered payload has length
`total_sectors * BLOCK_SIZE - header_skip_bytes` and byte `i` of the payload
is byte `header_skip_bytes + i` of the stream: the first 128 stream bytes are
consumed but not delivered, and everything after them lands contiguously from
the base of the target. -/
theorem header_skip_contract (data : List Nat)
    (hlen : data.length = total_sectors * BLOCK_SIZE) :
    (payload data).length = total_sectors * BLOCK_SIZE - header_skip_bytes ∧
    ∀ i, i < (payload data).length →
      (payload data).getD i 0 = data.getD (header_skip_bytes + i) 0 := by
  have hlen' : data.length = 49664 := by
    rw [hlen]; norm_num [total_sectors, BLOCK_SIZE]
  have hplen : (payload data).length = 49536 := by
    simp [payload, payload_len, total_sectors, BLOCK_SIZE, header_skip_bytes, hlen']
  constructor
  · rw [hplen]; norm_num [total_sectors, BLOCK_SIZE, header_skip_bytes]
  · intro i hi
    rw [hplen] at hi
    have hidx : header_skip_bytes + i < data.length := by
      rw [hlen']; simp only [header_skip_bytes]; omega
    have h1 : (payload data).getD i 0 = data.getD (128 + i) 0 := by
      simp only [payload, List.getD, List.get?_eq_getElem?]
      rw [List.getElem?_take_of_lt (show i < payload_len by
        simp only [payload_len, total_sectors, BLOCK_SIZE, header_skip_bytes]; omega)]
      rw [List.getElem?_drop]
    simpa [header_skip_bytes] using h1

/-- Witness for C3 at a concrete 49664-byte stream. -/
theorem header_skip_contract_witness :
    (List.replicate 49664 (7 : Nat)).length = total_sectors * BLOCK_SIZE ∧
    (payload (List.replicate 49664 (7 : Nat))).length
      = total_sectors * BLOCK_SIZE - header_skip_bytes :=
  ⟨by rw [List.length_replicate]; rfl,
   (header_skip_contract (List.replicate 49664 (7 : Nat))
     (by rw [List.length_replicate]; rfl)).1⟩

/-- States of the SD loader state machine of replace_loader.py
(`SD_IDLE .. SD_COMPLETE`, plus a constructor standing for any value outside
the defined set, handled by the `default` arm of the case statement). -/
inductive SDState where
  | idle
  | load_start
  | load_wait
  | load_data
  | load_next
  | complete
  | unknown_state
  deriving DecidableEq

/-- Per-tick inputs of the loader: the SD controller ready line, its status
code, and the byte-available flag together with its registered previous-cycle
value `sd_byte_available_d` used for edge detection. -/
structure SDInput where
  sd_ready : Bool
  sd_status : Nat
  sd_byte_available : Bool
  sd_byte_available_d : Bool
  deriving DecidableEq

/-- Registers of the loader state machine of replace_loader.py. -/
structure LoaderState where
  sd_state : SDState
  sd_address : Nat
  sd_rd : Bool
  byte_in_sector : Nat
  current_sector : Nat
  psram_wr_req : Bool
  psram_load_addr : Nat
  load_complete : Bool
  game_loaded : Bool
  deriving DecidableEq

/-- One clock tick of the `case (sd_state)` block of replace_loader.py.
Verilog non-blocking assignment semantics: every right-hand side reads the
previous-tick register values, so in `SD_LOAD_DATA` the `byte_in_sector == 511`
comparison uses the value before the increment. `GAME_SIZE_SECTORS` is the
sector-count parameter of top.v (97 for the 97-sector transfer). -/
def sdStep (GAME_SIZE_SECTORS : Nat) (s : LoaderState) (inp : SDInput) : LoaderState :=
  match s.sd_state with
  | .idle =>
      if inp.sd_ready && inp.sd_status == 6 then
        { s with sd_state := .load_start }
      else s
  | .load_start =>
      { s with sd_address := s.current_sector, sd_rd := true,
               byte_in_sector := 0, sd_state := .load_wait }
  | .load_wait =>
      if !inp.sd_ready then
        { s with sd_rd := false, sd_state := .load_data }
      else s
  | .load_data =>
      if inp.sd_ready && decide (s.byte_in_sector < 512) then
        { s with sd_state := .load_next }
      else if inp.sd_byte_available && !inp.sd_byte_available_d then
        { s with psram_wr_req := true,
                 psram_load_addr := s.psram_load_addr + 1,
                 byte_in_sector := s.byte_in_sector + 1,
                 sd_state := if s.byte_in_sector == 511 then .load_next else s.sd_state }
      else s
  | .load_next =>
      if s.current_sector == GAME_SIZE_SECTORS - 1 then
        { s with psram_wr_req := false, sd_state := .complete }
      else
        { s with psram_wr_req := false, current_sector := s.current_sector + 1,
                 sd_state := .load_start }
  | .complete =>
      { s with load_complete := true, game_loaded := true }
  | .unknown_state =>
      { s with sd_state := .idle }

/-- Run the loader for `n` ticks from state `s`, feeding tick `t` the input
`tr t`. -/
def sdRun (GAME_SIZE_SECTORS : Nat) (tr : Nat → SDInput) (s : LoaderState) : Nat → LoaderState
  | 0 => s
  | n + 1 => sdStep GAME_SIZE_SECTORS (sdRun GAME_SIZE_SECTORS tr s n) (tr n)

/-- A step taken in `complete` keeps the machine in `complete` and asserts
both completion flags. -/
theorem sdStep_complete (N : Nat) (s : LoaderState) (inp : SDInput)
    (h : s.sd_state = .complete) :
    (sdStep N s inp).sd_state = .complete ∧
    (sdStep N s inp).load_complete = true ∧
    (sdStep N s inp).game_loaded = true := by
  simp [sdStep, h]

/-- C4: in `load_next`, the machine moves to `complete` exactly when the
current sector index equals `GAME_SIZE_SECTORS - 1`, and otherwise increments
the sector index and returns to `load_start`; once in `complete`, every later
tick leaves it in `complete` with `load_complete` and `game_loaded` set. -/
theorem load_next_complete_behavior (N : Nat) (s : LoaderState) (inp : SDInput)
    (tr : Nat → SDInput) :
    (s.sd_state = .load_next →
      ((s.current_sector = N - 1 → (sdStep N s inp).sd_state = .complete) ∧
       (s.current_sector ≠ N - 1 →
         (sdStep N s inp).sd_state = .load_start ∧
         (sdStep N s inp).current_sector = s.current_sector + 1))) ∧
    (s.sd_state = .complete →
      ∀ n, 1 ≤ n →
        (sdRun N tr s n).sd_state = .complete ∧
        (sdRun N tr s n).load_complete = true ∧
        (sdRun N tr s n).game_loaded = true) := by
  constructor
  · intro hln
    constructor
    · intro hlast
      simp [sdStep, hln, hlast]
    · intro hnot
      simp [sdStep, hln, hnot]
  · intro hc n hn
    induction n with
    | zero => omega
    | succ m ih =>
        match m, ih with
        | 0, _ =>
            exact sdStep_complete N s (tr 0) hc
        | m + 1, ih =>
            have hprev := ih (by omega)
            exact sdStep_complete N _ (tr (m + 1)) hprev.1

/-- Witness for C4: a state sitting in `load_next` at the last sector index
96 of a 97-sector transfer steps into `complete`. -/
theorem load_next_complete_behavior_witness :
    (LoaderState.mk .load_next 0 false 0 96 false 0 false false).sd_state = .load_next ∧
    (sdStep 97 (LoaderState.mk .load_next 0 false 0 96 false 0 false false)
      (SDInput.mk true 6 false false)).sd_state = .complete :=
  ⟨rfl,
   ((load_next_complete_behavior 97 (LoaderState.mk .load_next 0 false 0 96 false 0 false false)
      (SDInput.mk true 6 false false) (fun _ => SDInput.mk true 6 false false)).1 rfl).1 rfl⟩

/-- C5: if the status input never equals the idle value 6, a loader started
in `idle` is still in `idle` after any number of ticks and in particular is
never in `load_start`: the guard in `SD_IDLE` is the only exit and it
requires `sd_status == 6`. -/
theorem device_stall_keeps_idle (N : Nat) (tr : Nat → SDInput) (s : LoaderState)
    (hidle : s.sd_state = .idle) (hstall : ∀ t, (tr t).sd_status ≠ 6) :
    ∀ n, (sdRun N tr s n).sd_state = .idle ∧
      (sdRun N tr s n).sd_state ≠ .load_start := by
  intro n
  induction n with
  | zero =>
      refine ⟨hidle, ?_⟩
      show s.sd_state ≠ SDState.load_start
      rw [hidle]
      decide
  | succ m ih =>
      have hst : (sdRun N tr s (m + 1)).sd_state = .idle := by
        show (sdStep N (sdRun N tr s m) (tr m)).sd_state = .idle
        have h6 : ((tr m).sd_status == 6) = false := by
          simp [hstall m]
        simp [sdStep, ih.1, h6]
      refine ⟨hst, ?_⟩
      rw [hst]
      decide

/-- Witness for C5: with a constant status of 0 the loader is still idle
after 3 ticks. -/
theorem device_stall_keeps_idle_witness :
    (LoaderState.mk .idle 0 false 0 0 false 0 false false).sd_state = .idle ∧
    (∀ t : Nat, ((fun _ : Nat => SDInput.mk true 0 false false) t).sd_status ≠ 6) ∧
    (sdRun 97 (fun _ => SDInput.mk true 0 false false)
      (LoaderState.mk .idle 0 false 0 0 false 0 false false) 3).sd_state = .idle :=
  ⟨rfl, fun t => by simp,
   (device_stall_keeps_idle 97 (fun _ => SDInput.mk true 0 false false)
     (LoaderState.mk .idle 0 false 0 0 false 0 false false) rfl (fun t => by simp) 3).1⟩

/-- Embedding of the sampling while loop of sim_crc2.py over an abstract byte
store `data` (Nat address to byte value; sim_crc2.py zero-pads its buffer to
98304 bytes, so every address the sweep touches is defined). Per iteration:
`byte_addr = crc_address * 2`, the bytes of 3 consecutive 4-byte words from
`byte_addr` are added to the accumulator, and `crc_address += 16`; the loop
continues while `crc_address <= 0x00BFF0`. The structural `fuel` argument
only bounds the recursion: starting from address 0 the guard fails after
exactly `0xBFF0 / 16 + 1 = 3072` iterations, and the top-level entry point
below passes `0xBFF0 / 16 + 2` units of fuel, so the loop always exits
through its own guard, never by exhausting fuel. -/
def checksum_loop (data : Nat → Nat) : Nat → Nat → Nat → Nat
  | 0, _, checksum => checksum
  | fuel + 1, crc_address, checksum =>
      if crc_address ≤ 0xBFF0 then
        checksum_loop data fuel (crc_address + 16)
          ((List.range 3).foldl
            (fun acc i =>
              (List.range 4).foldl
                (fun acc2 j => acc2 + data (crc_address * 2 + i * 4 + j)) acc)
            checksum)
      else checksum

/-- The complete sweep of sim_crc2.py: start at `crc_address = 0` with a zero
accumulator. -/
def checksum (data : Nat → Nat) : Nat :=
  checksum_loop data (0xBFF0 / 16 + 2) 0 0

/-- The partial-sample sweep read through a finite payload list, bytes past
the end reading as 0 exactly as the zero padding of sim_crc2.py provides. -/
def checksum_list (bytes : List Nat) : Nat :=
  checksum (fun i => bytes.getD i 0)

/-- One period of the sweep adds exactly the 12 bytes of the 3 sampled words
starting at byte address `b`. -/
theorem inner_foldl_eq (data : Nat → Nat) (b cs : Nat) :
    (List.range 3).foldl
      (fun acc i =>
        (List.range 4).foldl (fun acc2 j => acc2 + data (b + i * 4 + j)) acc) cs
    = cs + data (b + 0) + data (b + 1) + data (b + 2) + data (b + 3)
        + data (b + 4) + data (b + 5) + data (b + 6) + data (b + 7)
        + data (b + 8) + data (b + 9) + data (b + 10) + data (b + 11) := rfl

/-- Over an all-zero byte store every period contributes nothing, from any
cursor position and with any fuel. -/
theorem checksum_loop_zero (fuel : Nat) :
    ∀ addr cs, checksum_loop (fun _ => 0) fuel addr cs = cs := by
  induction fuel with
  | zero => intro addr cs; rfl
  | succ f ih =>
      intro addr cs
      by_cases ha : addr ≤ 0xBFF0
      · simp only [checksum_loop, if_pos ha, inner_foldl_eq]
        simpa using ih (addr + 16) cs
      · simp only [checksum_loop, if_neg ha]

/-- Over an all-one byte store the sweep adds 12 per remaining period: from
cursor `addr` there are `(0xBFF0 - addr) / 16 + 1` periods left while
`addr ≤ 0xBFF0`, and none beyond the bound. The fuel hypothesis says the
loop has at least as much fuel as periods, which the entry point always
grants. -/
theorem checksum_loop_one (fuel : Nat) :
    ∀ addr cs,
      (if addr ≤ 0xBFF0 then (0xBFF0 - addr) / 16 + 1 else 0) ≤ fuel →
      checksum_loop (fun _ => 1) fuel addr cs
        = cs + 12 * (if addr ≤ 0xBFF0 then (0xBFF0 - addr) / 16 + 1 else 0) := by
  induction fuel with
  | zero =>
      intro addr cs h
      by_cases ha : addr ≤ 0xBFF0
      · rw [if_pos ha] at h; omega
      · rw [if_neg ha]; rfl
  | succ f ih =>
      intro addr cs h
      by_cases ha : addr ≤ 0xBFF0
      · have hc : (if addr + 16 ≤ 0xBFF0 then (0xBFF0 - (addr + 16)) / 16 + 1 else 0) ≤ f := by
          rw [if_pos ha] at h
          by_cases hb : addr + 16 ≤ 0xBFF0
          · rw [if_pos hb]; omega
          · rw [if_neg hb]; omega
        have hstep : checksum_loop (fun _ => 1) (f + 1) addr cs
            = checksum_loop (fun _ => 1) f (addr + 16) (cs + 12) := by
          simp only [checksum_loop, if_pos ha]
          rfl
        rw [hstep, ih (addr + 16) (cs + 12) hc, if_pos ha]
        by_cases hb : addr + 16 ≤ 0xBFF0
        · rw [if_pos hb]; omega
        · rw [if_neg hb]; omega
      · simp only [checksum_loop, if_neg ha]
        omega

/-- C1: the partial-sample sweep with step 16, 3 sampled words (12 bytes) per
period and inclusive upper bound 0x00BFF0 accumulates 0 over an all-zero byte
store, and `12 * (0xBFF0 / 16 + 1) = 36864` over an all-0x01 byte store. -/
theorem partial_sample_scenario :
    checksum (fun _ => 0) = 0x00000000 ∧
    checksum (fun _ => 1) = 12 * (0xBFF0 / 16 + 1) := by
  constructor
  · exact checksum_loop_zero _ 0 0
  · have h := checksum_loop_one (0xBFF0 / 16 + 2) 0 0 (by norm_num)
    rw [checksum, h]
    norm_num

/-- One-step unfolding of the sweep at nonzero fuel, with the period sum in
explicit form. -/
theorem checksum_loop_succ (data : Nat → Nat) (f addr cs : Nat) :
    checksum_loop data (f + 1) addr cs
      = if addr ≤ 0xBFF0 then
          checksum_loop data f (addr + 16) (cs + data (addr * 2 + 0)
            + data (addr * 2 + 1) + data (addr * 2 + 2) + data (addr * 2 + 3)
            + data (addr * 2 + 4) + data (addr * 2 + 5) + data (addr * 2 + 6)
            + data (addr * 2 + 7) + data (addr * 2 + 8) + data (addr * 2 + 9)
            + data (addr * 2 + 10) + data (addr * 2 + 11))
        else cs := by
  simp only [checksum_loop, inner_foldl_eq]

/-- If every byte at address 32 or above is zero, the sweep adds nothing once
the cursor has passed its first period: from any cursor at 16 or beyond, all
sampled byte addresses are at least 32. -/
theorem checksum_loop_vanish (data : Nat → Nat) (hdata : ∀ i, 32 ≤ i → data i = 0)
    (fuel : Nat) :
    ∀ addr cs, 16 ≤ addr → checksum_loop data fuel addr cs = cs := by
  induction fuel with
  | zero => intro addr cs _; rfl
  | succ f ih =>
      intro addr cs haddr
      by_cases ha : addr ≤ 0xBFF0
      · have hstep : checksum_loop data (f + 1) addr cs
            = checksum_loop data f (addr + 16) (cs + data (addr * 2 + 0)
                + data (addr * 2 + 1) + data (addr * 2 + 2) + data (addr * 2 + 3)
                + data (addr * 2 + 4) + data (addr * 2 + 5) + data (addr * 2 + 6)
                + data (addr * 2 + 7) + data (addr * 2 + 8) + data (addr * 2 + 9)
                + data (addr * 2 + 10) + data (addr * 2 + 11)) := by
          simp only [checksum_loop, if_pos ha, inner_foldl_eq]
        rw [hstep,
          hdata (addr * 2 + 0) (by omega), hdata (addr * 2 + 1) (by omega),
          hdata (addr * 2 + 2) (by omega), hdata (addr * 2 + 3) (by omega),
          hdata (addr * 2 + 4) (by omega), hdata (addr * 2 + 5) (by omega),
          hdata (addr * 2 + 6) (by omega), hdata (addr * 2 + 7) (by omega),
          hdata (addr * 2 + 8) (by omega), hdata (addr * 2 + 9) (by omega),
          hdata (addr * 2 + 10) (by omega), hdata (addr * 2 + 11) (by omega)]
        simpa using ih (addr + 16) cs (by omega)
      · simp only [checksum_loop, if_neg ha]

/-- For a byte store that vanishes from address 32 on, the whole sweep reduces
to the 12 samples of its first period (cursor 0, byte addresses 0 to 11). -/
theorem checksum_first_period (data : Nat → Nat) (hdata : ∀ i, 32 ≤ i → data i = 0) :
    checksum data = 0 + data 0 + data 1 + data 2 + data 3 + data 4 + data 5
      + data 6 + data 7 + data 8 + data 9 + data 10 + data 11 := by
  have hone : checksum data
      = checksum_loop data 3072 16 (0 + data 0 + data 1 + data 2 + data 3 + data 4
          + data 5 + data 6 + data 7 + data 8 + data 9 + data 10 + data 11) := by
    rw [checksum, show (0xBFF0 / 16 + 2 : Nat) = 3072 + 1 from by norm_num,
      checksum_loop_succ, if_pos (by norm_num)]
  rw [hone, checksum_loop_vanish data hdata 3072 16 _ (by omega)]

/-- C8: the full-sum checksum is invariant under any reordering of the bytes,
while the partial-sample sweep is not: moving the single 1 of a 13-byte
payload from offset 0 (sampled) to offset 12 (skipped) changes the result. -/
theorem checksum_permutation_asymmetry :
    (∀ l l' : List Nat, l.Perm l' → sd_checksum l = sd_checksum l') ∧
    (([1] ++ List.replicate 12 0) : List Nat).Perm (List.replicate 12 0 ++ [1]) ∧
    checksum_list ([1] ++ List.replicate 12 0)
      ≠ checksum_list (List.replicate 12 0 ++ [1]) := by
  refine ⟨fun l l' h => ?_, List.perm_append_comm, ?_⟩
  · rw [sd_checksum_eq_sum_mod, sd_checksum_eq_sum_mod, h.sum_eq]
  · have h1 : checksum_list ([1] ++ List.replicate 12 0) = 1 := by
      rw [checksum_list, checksum_first_period]
      · rfl
      · intro i hi
        exact List.getD_eq_default _ 0 (by simp; omega)
    have h2 : checksum_list (List.replicate 12 0 ++ [1]) = 0 := by
      rw [checksum_list, checksum_first_period]
      · rfl
      · intro i hi
        exact List.getD_eq_default _ 0 (by simp; omega)
    rw [h1, h2]
    omega

/-- Witness for C8: the permutation-invariance part applied to a concrete
two-byte swap. -/
theorem checksum_permutation_asymmetry_witness :
    (([1, 2] : List Nat).Perm [2, 1]) ∧ sd_checksum [1, 2] = sd_checksum [2, 1] :=
  ⟨by decide, checksum_permutation_asymmetry.1 [1, 2] [2, 1] (by decide)⟩

/-- Embedding of the in-burst mapping printed by the loop of sim_offset.py:
`word_sel = (psram_load_addr >> 2) & 3` selects one of the 4 words of a
burst and `byte_sel = psram_load_addr & 3` the byte lane within the word. -/
def word_sel (psram_load_addr : Nat) : Nat := (psram_load_addr >>> 2) &&& 3

/-- Byte lane within a word, `byte_sel = psram_load_addr & 3` of sim_offset.py. -/
def byte_sel (psram_load_addr : Nat) : Nat := psram_load_addr &&& 3

/-- Modelled from the spec: the global placement decomposition of the
MemoryTarget, `word_index = address >> 2`. The PSRAM write path of top.v that
realizes it is not among the source files; sim_offset.py only prints the
in-burst word select `(address >> 2) & 3` over a 32-byte window. -/
def word_index (address : Nat) : Nat := address >>> 2

/-- Modelled from the spec: the byte lane of the placement decomposition,
`byte_lane = address & 3`; it coincides with `byte_sel` of sim_offset.py. -/
def byte_lane (address : Nat) : Nat := address &&& 3

/-- The word index is the address divided by 4. -/
theorem word_index_eq_div (a : Nat) : word_index a = a / 4 := by
  have h := Nat.shiftRight_eq_div_pow a 2
  simpa [word_index] using h

/-- The byte lane is the address modulo 4. -/
theorem byte_lane_eq_mod (a : Nat) : byte_lane a = a % 4 := by
  have h := Nat.and_pow_two_sub_one_eq_mod a 2
  norm_num at h
  simpa [byte_lane] using h

/-- C7: over any address range `[0, L)`, distinct addresses decompose into
distinct `(word_index, byte_lane)` pairs, and the pair is strictly increasing
in the address under lexicographic order. -/
theorem placement_injective_monotone (L a b : Nat) (_ha : a < L) (_hb : b < L) :
    (a ≠ b → (word_index a, byte_lane a) ≠ (word_index b, byte_lane b)) ∧
    (a < b →
      (word_index a < word_index b ∨
       (word_index a = word_index b ∧ byte_lane a < byte_lane b))) := by
  rw [word_index_eq_div, word_index_eq_div, byte_lane_eq_mod, byte_lane_eq_mod]
  constructor
  · intro hne heq
    have h1 : a / 4 = b / 4 := congrArg Prod.fst heq
    have h2 : a % 4 = b % 4 := congrArg Prod.snd heq
    omega
  · intro hlt
    omega

/-- Witness for C7 at the concrete addresses 1 and 2 inside `[0, 16)`. -/
theorem placement_injective_monotone_witness :
    (1 : Nat) < 16 ∧ (2 : Nat) < 16 ∧ (1 : Nat) ≠ 2 ∧
    (word_index 1, byte_lane 1) ≠ (word_index 2, byte_lane 2) :=
  ⟨by norm_num, by norm_num, by norm_num,
   (placement_injective_monotone 16 1 2 (by norm_num) (by norm_num)).1 (by norm_num)⟩

/-- Starting block of a game slot, `start_block = 1 + (game_number *
BLOCKS_PER_GAME)` from write_games_to_sd.py. -/
def start_block (game_number : Nat) : Nat := 1 + game_number * BLOCKS_PER_GAME

/-- The raw-device write a successful provisioning performs: a byte offset on
the medium and the bytes placed there. -/
structure WriteOp where
  offset : Nat
  bytes : List Nat
  deriving DecidableEq

/-- Embedding of `write_game_to_blocks` from write_games_to_sd.py. The size
check `blocks_needed > BLOCKS_PER_GAME` happens before the device is opened;
a rejected image therefore produces no write at all (`none`). On success the
data is written at byte offset `start_block * BLOCK_SIZE` and the last block
is zero-padded when the size is not a multiple of `BLOCK_SIZE`. -/
def write_game_to_blocks (game_number : Nat) (game_data : List Nat) : Option WriteOp :=
  let game_size := game_data.length
  let blocks_needed := (game_size + BLOCK_SIZE - 1) / BLOCK_SIZE
  if blocks_needed > BLOCKS_PER_GAME then
    none
  else
    let offset := start_block game_number * BLOCK_SIZE
    let remainder := game_size % BLOCK_SIZE
    let padding := if remainder > 0 then BLOCK_SIZE - remainder else 0
    some (WriteOp.mk offset (game_data ++ List.replicate padding 0))

/-- C6: the provisioner rejects an image, producing no device write at all,
exactly when its ceiling block count `(len + BLOCK_SIZE - 1) / BLOCK_SIZE`
exceeds `BLOCKS_PER_GAME`, equivalently when the image is larger than the
51200-byte slot capacity. -/
theorem oversize_rejection_iff (game_number : Nat) (game_data : List Nat) :
    (write_game_to_blocks game_number game_data = none ↔
      (game_data.length + BLOCK_SIZE - 1) / BLOCK_SIZE > BLOCKS_PER_GAME) ∧
    ((game_data.length + BLOCK_SIZE - 1) / BLOCK_SIZE > BLOCKS_PER_GAME ↔
      BLOCKS_PER_GAME * BLOCK_SIZE < game_data.length) := by
  constructor
  · rw [write_game_to_blocks]
    by_cases h : (game_data.length + BLOCK_SIZE - 1) / BLOCK_SIZE > BLOCKS_PER_GAME
    · simp [h]
    · simp [h]
  · simp only [BLOCK_SIZE, BLOCKS_PER_GAME]
    omega

/-- C9: slot `n` starts at block `1 + n * BLOCKS_PER_GAME`; slot 2 starts at
block 201, and a write to slot 2 lands at byte offset `201 * 512 = 102912` on
the medium. -/
theorem slot_placement :
    (∀ n : Nat, start_block n = 1 + n * BLOCKS_PER_GAME) ∧
    start_block 2 = 201 ∧
    Option.map WriteOp.offset (write_game_to_blocks 2 []) = some (201 * 512) ∧
    201 * 512 = 102912 := by
  refine ⟨fun n => rfl, by norm_num [start_block, BLOCKS_PER_GAME], ?_, by norm_num⟩
  rfl

/-- Substring containment over character lists, the semantics of the Python
`in` operator on strings used by the guard in main of write_games_to_sd.py:
the needle occurs as a contiguous run at some offset of the haystack. -/
def containsSub (needle hay : List Char) : Bool :=
  (List.range (hay.length + 1)).any (fun i => needle.isPrefixOf (hay.drop i))

/-- String-level wrapper for `containsSub`. -/
def path_contains (sd_device sub : String) : Bool :=
  containsSub sub.data sd_device.data

/-- Outcomes of the pre-write checks of main in write_games_to_sd.py, in the
order the source performs them: a missing device path exits, then the
system-disk guard exits, and only otherwise does the flow go on toward
writing. -/
inductive MainOutcome where
  | device_not_found
  | refused_system_disk
  | proceed
  deriving DecidableEq

/-- Embedding of the entry checks of main: `os.path.exists(sd_device)` is
handled first, then the guard
`if '/dev/disk0' in sd_device or '/dev/disk1' in sd_device: sys.exit(1)`. -/
def main_device_check (device_exists : Bool) (sd_device : String) : MainOutcome :=
  if !device_exists then
    .device_not_found
  else if path_contains sd_device "/dev/disk0" || path_contains sd_device "/dev/disk1" then
    .refused_system_disk
  else
    .proceed

/-- C10: whenever the device path contains `/dev/disk0` or `/dev/disk1` as a
substring the entry checks never reach the write phase, and because the guard
is a substring test the path `/dev/disk10` is itself refused. -/
theorem system_disk_guard (device_exists : Bool) (sd_device : String) :
    ((path_contains sd_device "/dev/disk0" || path_contains sd_device "/dev/disk1") = true →
      main_device_check device_exists sd_device ≠ .proceed) ∧
    main_device_check true "/dev/disk10" = .refused_system_disk := by
  constructor
  · intro h
    rw [main_device_check]
    by_cases he : device_exists
    · simp [he, h]
    · simp [he]
  · rfl

/-- Witness for C10: the guard hypothesis holds for `/dev/disk10` (it
contains `/dev/disk1`), and the check refuses that path. -/
theorem system_disk_guard_witness :
    (path_contains "/dev/disk10" "/dev/disk0"
      || path_contains "/dev/disk10" "/dev/disk1") = true ∧
    main_device_check true "/dev/disk10" ≠ .proceed :=
  ⟨by decide, (system_disk_guard true "/dev/disk10").1 (by decide)⟩
